import Mathlib

/-!
Shallow embedding of the prediction-lifecycle core of the repository:
the Prediction record and its settlement operations
(`predictionService.ts`, here from the unnamed service source),
the queue manager and its worker (`server/jobs/queue.ts`),
the standalone prediction worker (`server/jobs/workers/predictionWorker.ts`),
the ML HTTP client (`mlClient.ts`) and the webhook endpoint
(`app/api/predictions/[id]/route.ts`).

JavaScript numbers and Prisma Decimals are embedded as `Rat`; the
database is an explicit list of records threaded through every
operation; `new Date()` timestamps are an explicit `now : Nat` tick;
remote HTTP calls are oracles passed in as arguments.
-/

namespace PredCustos

/-- `PredictionStatus` enum from the Prisma schema. -/
inductive PredictionStatus where
  | PENDING
  | PROCESSING
  | COMPLETED
  | ERROR
deriving DecidableEq, Repr

/-- Terminal lifecycle states: `COMPLETED` and `ERROR`. -/
def PredictionStatus.isTerminal : PredictionStatus → Bool
  | .COMPLETED => true
  | .ERROR => true
  | _ => false

/-- Position of a status along the forward chain
`PENDING → PROCESSING → {COMPLETED, ERROR}`. -/
def PredictionStatus.rank : PredictionStatus → Nat
  | .PENDING => 0
  | .PROCESSING => 1
  | .COMPLETED => 2
  | .ERROR => 2

/-- `route` object inside the stored input payload. -/
structure Route where
  origin : String
  destination : String
deriving DecidableEq, Repr

/-- `fx_used` record: currency-pair name to rate. -/
abbrev FxRates := List (String × Rat)

/-- The fields of the stored `inputJson` payload that the core ever
reads back (`input.route` and `input.fx_used` in the workers). -/
structure InputJson where
  route : Option Route
  fx_used : Option FxRates
deriving DecidableEq, Repr

/-- The `breakdown` object of a remote prediction response; the code
accesses `model_used`, `version` and `artifact_path` on it, each
possibly absent. -/
structure Breakdown where
  model_used : Option String
  version : Option String
  artifact_path : Option String
deriving DecidableEq, Repr

/-- `PredictOutput` from `mlClient.ts`: `{ cost_total, currency, breakdown }`. -/
structure PredictOutput where
  cost_total : Rat
  currency : String
  breakdown : Option Breakdown
deriving DecidableEq, Repr

/-- The `output` object of the webhook payload
(`predictionUpdateSchema`): every field optional. -/
structure WebhookOutput where
  cost_total : Option Rat
  currency : Option String
  breakdown : Option Breakdown
deriving DecidableEq, Repr

/-- A value stored into the `outputJson` column: the queue worker stores
`result.breakdown || {}`, the standalone worker stores the whole
`PredictOutput`, and the webhook stores its `output` object. -/
inductive OutputJson where
  | fromBreakdown (b : Breakdown)
  | fromPredict (o : PredictOutput)
  | fromWebhook (o : WebhookOutput)
deriving DecidableEq, Repr

/-- The persisted Prediction record (Prisma model `Prediction`). -/
structure Prediction where
  id : String
  userId : String
  status : PredictionStatus
  currency : String
  volumeTon : Rat
  leadTimeDays : Option Rat
  fuelIndex : Option Rat
  taxMultiplier : Option Rat
  inputJson : InputJson
  costTotal : Option Rat
  euroPerKg : Option Rat
  outputJson : Option OutputJson
  modelUsed : Option String
  modelVersion : Option String
  artifactPath : Option String
  errorMessage : Option String
  createdAt : Nat
  updatedAt : Nat
deriving DecidableEq, Repr

/-- The prediction table: a list of records. -/
abbrev Db := List Prediction

/-- `prisma.prediction.findUnique({ where: { id } })`. -/
def dbGet (db : Db) (id : String) : Option Prediction :=
  db.find? (fun p => p.id = id)

/-- Errors thrown by the service layer: Prisma's record-not-found on
`update` of an unknown id, and explicit validation throws. -/
inductive ServiceError where
  | notFound (id : String)
  | validationError (msg : String)
deriving DecidableEq, Repr

/-- The `message` of a thrown service error (Prisma wording abbreviated;
no claim depends on the not-found text). -/
def ServiceError.message : ServiceError → String
  | .notFound id => "Record to update not found: " ++ id
  | .validationError msg => msg

/-- `prisma.prediction.update({ where: { id }, data })`: throws when the
id is unknown, otherwise rewrites the matching record and returns it. -/
def dbUpdate (db : Db) (id : String) (f : Prediction → Prediction) :
    Except ServiceError (Db × Prediction) :=
  match db.find? (fun p => p.id = id) with
  | none => .error (.notFound id)
  | some p => .ok (db.map (fun q => if q.id = id then f q else q), f p)

/-- JavaScript `x ? x : d` / `x || d` on an optional number: `null`,
`undefined` and `0` are all falsy. -/
def jsOrNum (v : Option Rat) (d : Rat) : Rat :=
  match v with
  | none => d
  | some x => if x = 0 then d else x

/-- JavaScript `x ? f x : null` on an optional number (`0` is falsy). -/
def jsSomeNum (v : Option Rat) : Option Rat :=
  match v with
  | none => none
  | some x => if x = 0 then none else some x

/-- JavaScript `a || b` on optional strings (`""` is falsy). -/
def jsOrStr (a b : Option String) : Option String :=
  match a with
  | none => b
  | some s => if s = "" then b else some s

/-- `CreatePredictionInput` of the prediction service. -/
structure CreatePredictionInput where
  userId : String
  currency : String
  volumeTon : Rat
  leadTimeDays : Option Rat
  fuelIndex : Option Rat
  taxMultiplier : Option Rat
  inputJson : InputJson
deriving DecidableEq, Repr

/-- `CompletePredictionInput` of the prediction service. -/
structure CompletePredictionInput where
  costTotal : Rat
  euroPerKg : Rat
  outputJson : OutputJson
  modelUsed : Option String
  modelVersion : Option String
  artifactPath : Option String
deriving DecidableEq, Repr

/-- `PredictionService.createPrediction`: rejects `volumeTon <= 0`, else
inserts a fresh `PENDING` record (the generated id passed explicitly). -/
def createPrediction (db : Db) (id : String) (data : CreatePredictionInput)
    (now : Nat) : Except ServiceError (Db × Prediction) :=
  if data.volumeTon ≤ 0 then
    .error (.validationError "Volume must be greater than 0")
  else
    let p : Prediction :=
      { id := id
        userId := data.userId
        status := .PENDING
        currency := data.currency
        volumeTon := data.volumeTon
        leadTimeDays := data.leadTimeDays
        fuelIndex := jsSomeNum data.fuelIndex
        taxMultiplier := jsSomeNum data.taxMultiplier
        inputJson := data.inputJson
        costTotal := none
        euroPerKg := none
        outputJson := none
        modelUsed := none
        modelVersion := none
        artifactPath := none
        errorMessage := none
        createdAt := now
        updatedAt := now }
    .ok (db ++ [p], p)

/-- `PredictionService.markProcessing`: unconditionally sets
`status = PROCESSING` and bumps `updatedAt`. -/
def markProcessing (db : Db) (id : String) (now : Nat) :
    Except ServiceError (Db × Prediction) :=
  dbUpdate db id (fun p => { p with status := .PROCESSING, updatedAt := now })

/-- `PredictionService.markError`: sets `status = ERROR` and stores the
message; it touches no other column. -/
def markError (db : Db) (id : String) (errorMessage : String) (now : Nat) :
    Except ServiceError (Db × Prediction) :=
  dbUpdate db id (fun p =>
    { p with status := .ERROR, errorMessage := some errorMessage, updatedAt := now })

/-- The advisory warning text written on an implausible euro-per-kg. -/
def absurdWarning : String := "WARNING: Abnormally high €/kg value detected"

/-- The message used when `markCompleted` rejects a non-positive cost. -/
def invalidCostMessage : String := "Invalid cost total: must be greater than 0"

/-- `PredictionService.markCompleted`: redirects to `markError` when
`costTotal <= 0`; otherwise marks `COMPLETED`, stores the result columns,
and sets `errorMessage` to the advisory warning when `euroPerKg > 10000`
and to `null` otherwise. Optional inputs left `undefined` do not touch
their column (Prisma skips `undefined` fields). -/
def markCompleted (db : Db) (id : String) (data : CompletePredictionInput)
    (now : Nat) : Except ServiceError (Db × Prediction) :=
  let isAbsurdValue := data.euroPerKg > 10000
  if data.costTotal ≤ 0 then
    markError db id invalidCostMessage now
  else
    dbUpdate db id (fun p =>
      { p with
        status := .COMPLETED
        costTotal := some data.costTotal
        euroPerKg := some data.euroPerKg
        outputJson := some data.outputJson
        modelUsed := data.modelUsed.orElse (fun _ => p.modelUsed)
        modelVersion := data.modelVersion.orElse (fun _ => p.modelVersion)
        artifactPath := data.artifactPath.orElse (fun _ => p.artifactPath)
        errorMessage := if isAbsurdValue then some absurdWarning else none
        updatedAt := now })

/-! ### Queue Manager (`server/jobs/queue.ts`) -/

/-- A job on the `prediction` queue: `queue.add('process', { predictionId },
{ jobId: "prediction-" + predictionId })`. -/
structure QueueJob where
  name : String
  predictionId : String
  jobId : String
deriving DecidableEq, Repr

/-- The broker's view of the queue: its currently held jobs. -/
structure QueueState where
  jobs : List QueueJob
deriving DecidableEq, Repr

/-- Modelled from the spec: the broker's `Queue.add` lives in the external
BullMQ library, not in this repository; per the spec, "the broker must
treat a duplicate `jobKey` as a coalesced no-op", so adding a job whose
`jobId` the queue already holds leaves the queue unchanged. -/
def queueAdd (q : QueueState) (job : QueueJob) : QueueState :=
  if q.jobs.any (fun j => j.jobId = job.jobId) then q
  else { jobs := q.jobs ++ [job] }

/-- `enqueuePrediction`: adds a `process` job with payload
`{ predictionId }` under `jobId = "prediction-" + predictionId`. -/
def enqueuePrediction (q : QueueState) (predictionId : String) : QueueState :=
  queueAdd q
    { name := "process"
      predictionId := predictionId
      jobId := "prediction-" ++ predictionId }

/-! ### Workers -/

/-- Outcome of the queue worker's raw `fetch` of the Python backend. -/
inductive PyOutcome where
  | ok (cost : Rat) (breakdown : Option Breakdown)
  | httpError (status : Nat) (errorText : String)
  | netError (msg : String)
deriving DecidableEq, Repr

/-- The shared catch block of both workers: `markError(predictionId,
errorMessage)` then `throw error` (re-raise for BullMQ). When `markError`
itself throws (unknown id), that error propagates instead and the
database is untouched. -/
def workerCatch (db : Db) (id errMsg : String) (now : Nat) :
    Db × Except String Unit :=
  match markError db id errMsg now with
  | .ok (db1, _) => (db1, .error errMsg)
  | .error e => (db, .error e.message)

/-- The job processor installed by `getPredictionWorker` in `queue.ts`:
load the prediction, `markProcessing`, POST `prediction.inputJson`
verbatim to the Python backend, and on success `markCompleted` with
`euroPerKg = cost / (volumeTon * 1000)`; any failure runs the catch
block (`markError` then re-raise). -/
def queueWorkerProcess (db : Db) (predictionId : String)
    (remote : InputJson → PyOutcome) (now : Nat) : Db × Except String Unit :=
  match dbGet db predictionId with
  | none => workerCatch db predictionId ("Prediction not found: " ++ predictionId) now
  | some prediction =>
    match markProcessing db predictionId now with
    | .error e => workerCatch db predictionId e.message now
    | .ok (db1, _) =>
      let payload := prediction.inputJson
      match remote payload with
      | .httpError status errorText =>
          workerCatch db1 predictionId
            ("Python API error: " ++ toString status ++ " - " ++ errorText) now
      | .netError msg => workerCatch db1 predictionId msg now
      | .ok cost breakdown =>
          let totalCost := cost
          let volumeKg := prediction.volumeTon * 1000
          let costPerKg := totalCost / volumeKg
          match markCompleted db1 predictionId
              { costTotal := totalCost
                euroPerKg := costPerKg
                outputJson := .fromBreakdown (breakdown.getD ⟨none, none, none⟩)
                modelUsed := breakdown.bind (fun b => b.model_used)
                modelVersion := breakdown.bind (fun b => b.version)
                artifactPath := breakdown.bind (fun b => b.artifact_path) } now with
          | .ok (db2, _) => (db2, .ok ())
          | .error e => workerCatch db1 predictionId e.message now

/-! ### Remote Prediction Client (`mlClient.ts`) -/

/-- Outcome of one underlying `fetch`: a response (any status), an
abort fired by the timeout timer, or a transport-level failure. -/
inductive FetchOutcome (α : Type) where
  | response (status : Nat) (statusText : String) (body : α)
  | abort
  | network (msg : String)
deriving DecidableEq, Repr

/-- Errors raised by `MLClient.fetchWithTimeout`, separated by cause. -/
inductive MlError where
  | timeout (timeoutMs : Nat)
  | httpError (status : Nat) (statusText : String)
  | network (msg : String)
deriving DecidableEq, Repr

/-- The `message` of each raised error, as built in `fetchWithTimeout`. -/
def MlError.message : MlError → String
  | .timeout ms => "Request timeout after " ++ toString ms ++ "ms"
  | .httpError status statusText =>
      "ML API error: " ++ toString status ++ " " ++ statusText
  | .network msg => msg

/-- `DEFAULT_TIMEOUT = 25000` (25 seconds) in `mlClient.ts`. -/
def DEFAULT_TIMEOUT : Nat := 25000

/-- `response.ok`: HTTP status in the 2xx range. -/
def responseOk (status : Nat) : Bool := 200 ≤ status && status < 300

/-- `MLClient.fetchWithTimeout`: one `fetch` guarded by an abort timer of
`timeoutMs` (default `DEFAULT_TIMEOUT`); an `AbortError` becomes the
distinct timeout error, a non-2xx response becomes an error carrying the
status, other failures are rethrown as-is. -/
def fetchWithTimeout {α : Type} (outcome : FetchOutcome α)
    (timeoutMs : Nat := DEFAULT_TIMEOUT) : Except MlError α :=
  match outcome with
  | .abort => .error (.timeout timeoutMs)
  | .network msg => .error (.network msg)
  | .response status statusText body =>
      if responseOk status then .ok body
      else .error (.httpError status statusText)

/-- `TrainOutput` from `mlClient.ts`. -/
structure TrainOutput where
  job_id : String
  status : String
deriving DecidableEq, Repr

/-- `ModelInfo` from `mlClient.ts`. -/
structure ModelInfo where
  name : String
  version : String
  created_at : String
deriving DecidableEq, Repr

/-- `MLClient.predict`: a single `fetchWithTimeout` with the default
timeout; errors are logged and rethrown unchanged. The oracle maps an
attempt index to that attempt's outcome; the client only ever performs
attempt `0`. -/
def mlPredict (attempts : Nat → FetchOutcome PredictOutput) :
    Except MlError PredictOutput :=
  fetchWithTimeout (attempts 0)

/-- `MLClient.train`: a single `fetchWithTimeout`, default timeout. -/
def mlTrain (attempts : Nat → FetchOutcome TrainOutput) :
    Except MlError TrainOutput :=
  fetchWithTimeout (attempts 0)

/-- `MLClient.listModels`: a single `fetchWithTimeout`, default timeout. -/
def mlListModels (attempts : Nat → FetchOutcome (List ModelInfo)) :
    Except MlError (List ModelInfo) :=
  fetchWithTimeout (attempts 0)

/-! ### Standalone worker (`server/jobs/workers/predictionWorker.ts`) -/

/-- `PredictInput` from `mlClient.ts`, as fully populated by
`buildMlPayloadFromPrediction` (the `meta` object flattened to its
`prediction_id`). -/
structure PredictInput where
  currency : String
  volume_ton : Rat
  lead_time_days : Rat
  fuel_index : Rat
  tax_multiplier : Rat
  route : Route
  fx_used : FxRates
  meta_prediction_id : String
deriving DecidableEq, Repr

/-- The fallback `route` literal in `buildMlPayloadFromPrediction`. -/
def defaultRoute : Route := { origin := "BR-CE", destination := "PT-LIS" }

/-- The fallback `fx_used` literal in `buildMlPayloadFromPrediction`. -/
def defaultFxUsed : FxRates := [("BRL_EUR", 18 / 100), ("BRL_USD", 20 / 100)]

/-- `buildMlPayloadFromPrediction`: assembles the ML request from the
prediction's columns (`leadTimeDays || 30`, `fuelIndex ? _ : 1.0`,
`taxMultiplier ? _ : 1.0`) and the stored `inputJson`'s `route` and
`fx_used` (with object-literal fallbacks). -/
def buildMlPayloadFromPrediction (prediction : Prediction) : PredictInput :=
  let input := prediction.inputJson
  { currency := prediction.currency
    volume_ton := prediction.volumeTon
    lead_time_days := jsOrNum prediction.leadTimeDays 30
    fuel_index := jsOrNum prediction.fuelIndex 1
    tax_multiplier := jsOrNum prediction.taxMultiplier 1
    route := input.route.getD defaultRoute
    fx_used := input.fx_used.getD defaultFxUsed
    meta_prediction_id := prediction.id }

/-- The job processor installed by `initializePredictionWorker`:
`markProcessing`, build the payload via `buildMlPayloadFromPrediction`,
call `mlClient.predict`, and on success `markCompleted` with
`euroPerKg = cost_total / (volumeTon * 1000)`; any failure runs the
catch block (`markError` then re-raise). -/
def predictionWorkerProcess (db : Db) (predictionId : String)
    (remote : PredictInput → FetchOutcome PredictOutput) (now : Nat) :
    Db × Except String Unit :=
  match markProcessing db predictionId now with
  | .error e => workerCatch db predictionId e.message now
  | .ok (db1, prediction) =>
      let input := buildMlPayloadFromPrediction prediction
      match fetchWithTimeout (remote input) with
      | .error e => workerCatch db1 predictionId e.message now
      | .ok output =>
          let costTotal := output.cost_total
          let volumeTonNumber := prediction.volumeTon
          let euroPerKg := costTotal / (volumeTonNumber * 1000)
          match markCompleted db1 predictionId
              { costTotal := costTotal
                euroPerKg := euroPerKg
                outputJson := .fromPredict output
                modelUsed := output.breakdown.bind (fun b => b.model_used)
                modelVersion := output.breakdown.bind (fun b => b.version)
                artifactPath := output.breakdown.bind (fun b => b.artifact_path) }
              now with
          | .ok (db2, _) => (db2, .ok ())
          | .error e => workerCatch db1 predictionId e.message now

/-! ### Webhook endpoint (`app/api/predictions/[id]/route.ts`, POST) -/

/-- The `status` field of the webhook payload (`z.enum`). -/
inductive WebhookStatus where
  | completed
  | error
deriving DecidableEq, Repr

/-- The literal text of a webhook status, as interpolated into the
response message. -/
def WebhookStatus.text : WebhookStatus → String
  | .completed => "completed"
  | .error => "error"

/-- A payload accepted by `predictionUpdateSchema`. -/
structure WebhookPayload where
  prediction_id : String
  status : WebhookStatus
  output : Option WebhookOutput
  error : Option String
  processing_time_ms : Option Nat
  model_used : Option String
  model_version : Option String
deriving DecidableEq, Repr

/-- A request body: either it parses against the zod schema or not. -/
inductive WebhookBody where
  | valid (data : WebhookPayload)
  | invalid
deriving Repr

/-- The responses the webhook handler can produce. -/
inductive WebhookResponse where
  | unauthorized
  | invalidPayload
  | notFound
  | success (message : String)
  | serverError
deriving DecidableEq, Repr

/-- The HTTP status code of each webhook response. -/
def WebhookResponse.statusCode : WebhookResponse → Nat
  | .unauthorized => 401
  | .invalidPayload => 400
  | .notFound => 404
  | .success _ => 200
  | .serverError => 500

/-- JavaScript `a || d` on an optional string with a string default. -/
def jsOrStrD (a : Option String) (d : String) : String :=
  match a with
  | none => d
  | some s => if s = "" then d else s

/-- The webhook `POST` handler: check the bearer secret against the
configured one, validate the payload, look up the prediction, then —
only when `status = "completed"` and `output` is present — settle via
`markCompleted` with `costTotal = output.cost_total || 0` and
`euroPerKg = costTotal / (volumeTon * 1000)`, or via `markError` when
`status = "error"`; in every non-rejected case it answers `200` with
"Prediction <id> updated to <status>". The extracted bearer `secret` is
a parameter, as is the configured `ML_WEBHOOK_SECRET`. -/
def webhookPost (configuredSecret : String) (db : Db) (secret : String)
    (body : WebhookBody) (now : Nat) : Db × WebhookResponse :=
  if secret ≠ configuredSecret then (db, .unauthorized)
  else
    match body with
    | .invalid => (db, .invalidPayload)
    | .valid data =>
      match dbGet db data.prediction_id with
      | none => (db, .notFound)
      | some prediction =>
        let settled : Except ServiceError Db :=
          match data.status, data.output with
          | .completed, some output =>
              let costTotal := jsOrNum output.cost_total 0
              let volumeTonNumber := prediction.volumeTon
              let euroPerKg := costTotal / (volumeTonNumber * 1000)
              (markCompleted db data.prediction_id
                { costTotal := costTotal
                  euroPerKg := euroPerKg
                  outputJson := .fromWebhook output
                  modelUsed :=
                    jsOrStr data.model_used (output.breakdown.bind (fun b => b.model_used))
                  modelVersion :=
                    jsOrStr data.model_version (output.breakdown.bind (fun b => b.version))
                  artifactPath := output.breakdown.bind (fun b => b.artifact_path) }
                now).map (fun r => r.1)
          | .completed, none => .ok db
          | .error, _ =>
              (markError db data.prediction_id
                (jsOrStrD data.error "Unknown error from ML service") now).map
                (fun r => r.1)
        match settled with
        | .error _ => (db, .serverError)
        | .ok db1 =>
            (db1,
             .success ("Prediction " ++ data.prediction_id ++ " updated to "
               ++ data.status.text))

/-! ### Settlement steps and reachable databases -/

/-- One settlement operation of the Prediction Service, as invoked by the
workers, the sync dispatcher or the webhook. -/
inductive SettleOp where
  | processing (now : Nat)
  | completed (data : CompletePredictionInput) (now : Nat)
  | error (msg : String) (now : Nat)

/-- Whether a settlement operation is `markProcessing`. -/
def SettleOp.isProcessing : SettleOp → Bool
  | .processing _ => true
  | _ => false

/-- Dispatch a settlement operation to the corresponding service call. -/
def applySettleOp (db : Db) (id : String) :
    SettleOp → Except ServiceError (Db × Prediction)
  | .processing now => markProcessing db id now
  | .completed data now => markCompleted db id data now
  | .error msg now => markError db id msg now

/-- One successful mutation of the prediction table: a creation or a
settlement operation. -/
inductive Step : Db → Db → Prop where
  | create {db : Db} {id : String} {data : CreatePredictionInput} {now : Nat}
      {db' : Db} {p : Prediction} :
      createPrediction db id data now = Except.ok (db', p) → Step db db'
  | settle {db : Db} {id : String} {op : SettleOp} {db' : Db} {p : Prediction} :
      applySettleOp db id op = Except.ok (db', p) → Step db db'

/-- Databases reachable from the empty table through the service's own
operations. -/
inductive Reach : Db → Prop where
  | init : Reach []
  | step {db db' : Db} : Reach db → Step db db' → Reach db'

/-! ### Basic lemmas about the record store -/

theorem dbUpdate_eq_ok {db : Db} {id : String} {f : Prediction → Prediction}
    {db' : Db} {p' : Prediction} (h : dbUpdate db id f = .ok (db', p')) :
    ∃ p, db.find? (fun q => q.id = id) = some p ∧ p' = f p ∧
      db' = db.map (fun q => if q.id = id then f q else q) := by
  unfold dbUpdate at h
  cases hfind : db.find? (fun q => q.id = id) with
  | none => rw [hfind] at h; exact absurd h (by simp)
  | some p =>
      rw [hfind] at h
      simp only [Except.ok.injEq, Prod.mk.injEq] at h
      exact ⟨p, rfl, h.2.symm, h.1.symm⟩

theorem dbGet_map_update {db : Db} {id : String} {f : Prediction → Prediction}
    {p : Prediction} (hp : db.find? (fun q => q.id = id) = some p)
    (hid : ∀ q, (f q).id = q.id) :
    dbGet (db.map (fun q => if q.id = id then f q else q)) id = some (f p) := by
  unfold dbGet
  rw [List.find?_map]
  have hpred :
      ((fun q : Prediction => decide (q.id = id)) ∘
        (fun q => if q.id = id then f q else q)) =
      (fun q : Prediction => decide (q.id = id)) := by
    funext q
    by_cases hq : q.id = id
    · simp [hq, hid]
    · simp [hq]
  rw [hpred, hp]
  have hpid : p.id = id := by
    have := List.find?_some hp
    simpa using this
  simp [hpid]

theorem dbGet_dbUpdate_self {db : Db} {id : String} {f : Prediction → Prediction}
    {db' : Db} {p' : Prediction} (h : dbUpdate db id f = .ok (db', p'))
    (hid : ∀ q, (f q).id = q.id) : dbGet db' id = some p' := by
  obtain ⟨p, hfind, hp', hdb'⟩ := dbUpdate_eq_ok h
  subst hdb'
  rw [hp']
  exact dbGet_map_update hfind hid

theorem dbUpdate_of_dbGet {db : Db} {id : String} {p : Prediction}
    (hp : dbGet db id = some p) (f : Prediction → Prediction) :
    dbUpdate db id f =
      .ok (db.map (fun q => if q.id = id then f q else q), f p) := by
  unfold dbGet at hp
  unfold dbUpdate
  rw [hp]

/-! ### Concrete sample data used by witnesses and counterexamples -/

/-- A stored input payload with both readable fields present. -/
def sampleInput : InputJson :=
  { route := some { origin := "BR-SSZ", destination := "PT-LIS" }
    fx_used := some [("BRL_EUR", 1)] }

/-- A freshly created `PENDING` record with id `p1`. -/
def samplePred : Prediction :=
  { id := "p1"
    userId := "u1"
    status := .PENDING
    currency := "EUR"
    volumeTon := 1000
    leadTimeDays := none
    fuelIndex := none
    taxMultiplier := none
    inputJson := sampleInput
    costTotal := none
    euroPerKg := none
    outputJson := none
    modelUsed := none
    modelVersion := none
    artifactPath := none
    errorMessage := none
    createdAt := 0
    updatedAt := 0 }

/-- A one-record table holding `samplePred`. -/
def sampleDb : Db := [samplePred]

/-- An empty breakdown wrapped as a stored output. -/
def sampleOutputJson : OutputJson :=
  .fromBreakdown { model_used := none, version := none, artifact_path := none }

/-- A completion payload with the given cost and unit cost. -/
def sampleCompleteInput (c e : Rat) : CompletePredictionInput :=
  { costTotal := c
    euroPerKg := e
    outputJson := sampleOutputJson
    modelUsed := none
    modelVersion := none
    artifactPath := none }

/-! ### C1 -/

/-- C1: `markCompleted` with `costTotal ≤ 0` is literally the
`markError` call with message "Invalid cost total: must be greater than
0", and whenever that call succeeds the stored record has settled to
`ERROR` with exactly that message — never to `COMPLETED`. -/
theorem markCompleted_nonpositive_cost_errors (db : Db) (id : String)
    (data : CompletePredictionInput) (now : Nat) (h : data.costTotal ≤ 0) :
    markCompleted db id data now = markError db id invalidCostMessage now ∧
    ∀ db' p', markCompleted db id data now = .ok (db', p') →
      dbGet db' id = some p' ∧ p'.status = .ERROR ∧
      p'.errorMessage = some invalidCostMessage ∧ p'.status ≠ .COMPLETED := by
  have hredir : markCompleted db id data now = markError db id invalidCostMessage now := by
    unfold markCompleted
    simp only [if_pos h]
  refine ⟨hredir, ?_⟩
  intro db' p' hok
  rw [hredir] at hok
  unfold markError at hok
  have hself : dbGet db' id = some p' :=
    dbGet_dbUpdate_self hok (fun q => rfl)
  obtain ⟨p, hfind, hp', hdb'⟩ := dbUpdate_eq_ok hok
  subst hp'
  exact ⟨hself, rfl, rfl, by simp⟩

/-- Witness for C1: completing `p1` with `costTotal = 0` redirects to
`markError` on the sample table. -/
theorem markCompleted_nonpositive_cost_errors_witness :
    (sampleCompleteInput 0 25).costTotal ≤ 0 ∧
    markCompleted sampleDb "p1" (sampleCompleteInput 0 25) 1 =
      markError sampleDb "p1" invalidCostMessage 1 :=
  ⟨by decide,
   (markCompleted_nonpositive_cost_errors sampleDb "p1"
     (sampleCompleteInput 0 25) 1 (by decide)).1⟩

/-! ### C5 -/

/-- C5: a successful `markCompleted` with positive `costTotal` always
settles the record to `COMPLETED`, and its `errorMessage` is freshly
determined by the new payload alone: the advisory warning exactly when
`euroPerKg > 10000`, and `null` otherwise — so any prior advisory or
error message on the record is overwritten or cleared. -/
theorem markCompleted_advisory_flag (db : Db) (id : String)
    (data : CompletePredictionInput) (now : Nat) (hc : 0 < data.costTotal)
    (db' : Db) (p' : Prediction)
    (hok : markCompleted db id data now = .ok (db', p')) :
    p'.status = .COMPLETED ∧ dbGet db' id = some p' ∧
    p'.errorMessage =
      (if data.euroPerKg > 10000 then some absurdWarning else none) := by
  unfold markCompleted at hok
  rw [if_neg (by exact not_le.2 hc)] at hok
  have hself : dbGet db' id = some p' :=
    dbGet_dbUpdate_self hok (fun q => rfl)
  obtain ⟨p, hfind, hp', hdb'⟩ := dbUpdate_eq_ok hok
  subst hp'
  exact ⟨rfl, hself, rfl⟩

/-- The sample record after `markCompleted` with cost 2500 and an absurd
unit cost of 15000: completed, but carrying the advisory warning. -/
def samplePredWarn : Prediction :=
  { samplePred with
    status := .COMPLETED
    costTotal := some 2500
    euroPerKg := some 15000
    outputJson := some sampleOutputJson
    errorMessage := some absurdWarning
    updatedAt := 1 }

/-- Witness for C5 (Scenario 6): `euroPerKg = 15000` settles `p1` to
`COMPLETED` with the advisory warning as its `errorMessage`. -/
theorem markCompleted_advisory_flag_witness :
    (0 : Rat) < (sampleCompleteInput 2500 15000).costTotal ∧
    samplePredWarn.status = .COMPLETED ∧
    dbGet [samplePredWarn] "p1" = some samplePredWarn ∧
    samplePredWarn.errorMessage =
      (if (sampleCompleteInput 2500 15000).euroPerKg > 10000
       then some absurdWarning else none) :=
  ⟨by decide,
   markCompleted_advisory_flag sampleDb "p1" (sampleCompleteInput 2500 15000) 1
     (by decide) [samplePredWarn] samplePredWarn (by rfl)⟩

/-! ### C9 -/

/-- C9: a webhook request whose extracted bearer secret differs from the
configured `ML_WEBHOOK_SECRET` is answered `401 Unauthorized` and the
whole prediction table — hence the target record — is returned exactly
as it was: no update of any field occurs. -/
theorem webhook_bad_secret_rejects (configuredSecret : String) (db : Db)
    (secret : String) (body : WebhookBody) (now : Nat)
    (h : secret ≠ configuredSecret) :
    webhookPost configuredSecret db secret body now = (db, .unauthorized) ∧
    (webhookPost configuredSecret db secret body now).2.statusCode = 401 := by
  have hres : webhookPost configuredSecret db secret body now = (db, .unauthorized) := by
    unfold webhookPost
    rw [if_pos h]
  refine ⟨hres, ?_⟩
  rw [hres]
  rfl

/-- Witness for C9 (Scenario 4): a wrong secret against the sample table. -/
theorem webhook_bad_secret_rejects_witness :
    "wrong-secret" ≠ "changeme_webhook_secret" ∧
    webhookPost "changeme_webhook_secret" sampleDb "wrong-secret"
      (.valid
        { prediction_id := "p1"
          status := .completed
          output := none
          error := none
          processing_time_ms := none
          model_used := none
          model_version := none }) 7 = (sampleDb, .unauthorized) :=
  ⟨by decide,
   (webhook_bad_secret_rejects "changeme_webhook_secret" sampleDb "wrong-secret"
     (.valid
        { prediction_id := "p1"
          status := .completed
          output := none
          error := none
          processing_time_ms := none
          model_used := none
          model_version := none }) 7 (by decide)).1⟩

/-! ### C10 -/

/-- C10: a webhook request with the correct secret, a known prediction
id, `status = "completed"` but no `output` object falls through both
settlement branches: the handler answers `200` with the message
"Prediction <id> updated to completed" while the table — and so every
field of the target record — is returned unchanged. -/
theorem webhook_completed_without_output_no_op (configuredSecret : String)
    (db : Db) (data : WebhookPayload) (now : Nat) (p : Prediction)
    (hid : dbGet db data.prediction_id = some p)
    (hst : data.status = .completed) (hout : data.output = none) :
    webhookPost configuredSecret db configuredSecret (.valid data) now =
      (db, .success ("Prediction " ++ data.prediction_id ++ " updated to completed")) ∧
    (webhookPost configuredSecret db configuredSecret (.valid data) now).2.statusCode
      = 200 := by
  have hres : webhookPost configuredSecret db configuredSecret (.valid data) now =
      (db, .success ("Prediction " ++ data.prediction_id ++ " updated to completed")) := by
    obtain ⟨pid, st, out, err, ptm, mu, mv⟩ := data
    simp only at hid hst hout
    subst hst
    subst hout
    unfold webhookPost
    rw [if_neg (by simp)]
    simp only
    rw [hid]
    simp only [WebhookStatus.text, String.append_assoc,
      show (" updated to " ++ "completed" : String) = " updated to completed" from rfl]
  refine ⟨hres, ?_⟩
  rw [hres]
  rfl

/-- Witness for C10 on the sample table: valid secret, known id,
`status = "completed"`, no output — `200`, table unchanged. -/
theorem webhook_completed_without_output_no_op_witness :
    dbGet sampleDb "p1" = some samplePred ∧
    webhookPost "changeme_webhook_secret" sampleDb "changeme_webhook_secret"
      (.valid
        { prediction_id := "p1"
          status := .completed
          output := none
          error := none
          processing_time_ms := none
          model_used := none
          model_version := none }) 7 =
      (sampleDb, .success "Prediction p1 updated to completed") :=
  ⟨by decide,
   (webhook_completed_without_output_no_op "changeme_webhook_secret" sampleDb
      { prediction_id := "p1"
        status := .completed
        output := none
        error := none
        processing_time_ms := none
        model_used := none
        model_version := none } 7 samplePred (by decide) rfl rfl).1⟩

/-! ### C4 -/

/-- C4: `enqueuePrediction` inserts a job keyed exactly
`"prediction-" + predictionId`; enqueueing the same id onto a queue that
already holds that key is a coalesced no-op, so a double enqueue equals a
single one and leaves exactly one job under that key. -/
theorem enqueuePrediction_idempotent_key :
    (∀ (q : QueueState) (predictionId : String),
      q.jobs.any (fun j => j.jobId = "prediction-" ++ predictionId) = false →
      (enqueuePrediction q predictionId).jobs =
        q.jobs ++ [{ name := "process"
                     predictionId := predictionId
                     jobId := "prediction-" ++ predictionId }]) ∧
    (∀ (q : QueueState) (predictionId : String),
      enqueuePrediction (enqueuePrediction q predictionId) predictionId =
        enqueuePrediction q predictionId) ∧
    (∀ (q : QueueState) (predictionId : String),
      q.jobs.countP (fun j => j.jobId = "prediction-" ++ predictionId) = 0 →
      ((enqueuePrediction (enqueuePrediction q predictionId) predictionId).jobs.countP
        (fun j => j.jobId = "prediction-" ++ predictionId)) = 1) := by
  have hfresh : ∀ (q : QueueState) (predictionId : String),
      q.jobs.any (fun j => j.jobId = "prediction-" ++ predictionId) = false →
      (enqueuePrediction q predictionId).jobs =
        q.jobs ++ [{ name := "process"
                     predictionId := predictionId
                     jobId := "prediction-" ++ predictionId }] := by
    intro q predictionId h
    simp [enqueuePrediction, queueAdd, h]
  have hidem : ∀ (q : QueueState) (predictionId : String),
      enqueuePrediction (enqueuePrediction q predictionId) predictionId =
        enqueuePrediction q predictionId := by
    intro q predictionId
    by_cases hq : q.jobs.any (fun j => j.jobId = "prediction-" ++ predictionId) = true
    · simp [enqueuePrediction, queueAdd, hq]
    · simp only [Bool.not_eq_true] at hq
      simp [enqueuePrediction, queueAdd, hq, List.any_append]
  refine ⟨hfresh, hidem, ?_⟩
  intro q predictionId h
  have hany : q.jobs.any (fun j => j.jobId = "prediction-" ++ predictionId) = false := by
    rw [List.any_eq_false]
    intro j hj
    intro hkey
    have := List.countP_eq_zero.1 h j hj
    exact this (by simpa using hkey)
  rw [hidem q predictionId, hfresh q predictionId hany]
  rw [List.countP_append]
  rw [List.countP_eq_zero.2 (fun j hj hkey => (List.countP_eq_zero.1 h j hj) hkey)]
  simp

/-- Witness for C4: double-enqueue of id `abc` on the empty queue leaves
exactly one job keyed `prediction-abc`. -/
theorem enqueuePrediction_idempotent_key_witness :
    (QueueState.mk []).jobs.countP (fun j => j.jobId = "prediction-" ++ "abc") = 0 ∧
    ((enqueuePrediction (enqueuePrediction ⟨[]⟩ "abc") "abc").jobs.countP
      (fun j => j.jobId = "prediction-" ++ "abc")) = 1 :=
  ⟨rfl, enqueuePrediction_idempotent_key.2.2 ⟨[]⟩ "abc" rfl⟩

/-! ### C8 -/

/-- A successful remote prediction body for sample runs. -/
def samplePredictOutput : PredictOutput :=
  { cost_total := 2500, currency := "EUR", breakdown := none }

/-- C8: every ML client call runs through `fetchWithTimeout`, whose
timeout defaults to `DEFAULT_TIMEOUT = 25000` ms; an abort becomes the
distinct timeout error (with its own message), never a generic network
error; a non-2xx response becomes an error carrying the HTTP status; and
`predict`/`train`/`listModels` consult only attempt `0` of the outcome
oracle — a single attempt, no internal retry. -/
theorem mlClient_timeout_policy :
    DEFAULT_TIMEOUT = 25000 ∧
    (∀ (α : Type) (o : FetchOutcome α),
      fetchWithTimeout o = fetchWithTimeout o DEFAULT_TIMEOUT) ∧
    (∀ (α : Type) (tm : Nat),
      fetchWithTimeout (FetchOutcome.abort : FetchOutcome α) tm =
        .error (.timeout tm)) ∧
    (∀ (tm : Nat) (msg : String), MlError.timeout tm ≠ MlError.network msg) ∧
    (∀ tm : Nat,
      (MlError.timeout tm).message = "Request timeout after " ++ toString tm ++ "ms") ∧
    (∀ (α : Type) (status : Nat) (statusText : String) (body : α) (tm : Nat),
      responseOk status = false →
      fetchWithTimeout (FetchOutcome.response status statusText body) tm =
        .error (.httpError status statusText)) ∧
    (∀ f g : Nat → FetchOutcome PredictOutput, f 0 = g 0 → mlPredict f = mlPredict g) ∧
    (∀ f g : Nat → FetchOutcome TrainOutput, f 0 = g 0 → mlTrain f = mlTrain g) ∧
    (∀ f g : Nat → FetchOutcome (List ModelInfo), f 0 = g 0 →
      mlListModels f = mlListModels g) := by
  refine ⟨rfl, fun α o => rfl, fun α tm => rfl, ?_, fun tm => rfl, ?_, ?_, ?_, ?_⟩
  · intro tm msg h
    cases h
  · intro α status statusText body tm h
    simp [fetchWithTimeout, h]
  · intro f g h
    simp [mlPredict, h]
  · intro f g h
    simp [mlTrain, h]
  · intro f g h
    simp [mlListModels, h]

/-- Witness for C8: a 500 response raises the status-carrying error, and
two oracles agreeing on attempt 0 give `predict` the same result. -/
theorem mlClient_timeout_policy_witness :
    responseOk 500 = false ∧
    fetchWithTimeout (FetchOutcome.response 500 "Internal Server Error" samplePredictOutput)
      25000 = .error (.httpError 500 "Internal Server Error") ∧
    mlPredict (fun _ => FetchOutcome.abort) =
      mlPredict (fun n => if n = 0 then FetchOutcome.abort else FetchOutcome.network "x") :=
  ⟨rfl,
   mlClient_timeout_policy.2.2.2.2.2.1 PredictOutput 500 "Internal Server Error"
     samplePredictOutput 25000 rfl,
   mlClient_timeout_policy.2.2.2.2.2.2.1 (fun _ => FetchOutcome.abort)
     (fun n => if n = 0 then FetchOutcome.abort else FetchOutcome.network "x") (by simp)⟩

/-! ### C2 -/

/-- The sample record already settled to `ERROR`. -/
def samplePredErrState : Prediction :=
  { samplePred with status := .ERROR, errorMessage := some "upstream failed" }

/-- `samplePredErrState` after a retried job re-applies `markProcessing`. -/
def samplePredReopened : Prediction :=
  { samplePredErrState with status := .PROCESSING, updatedAt := 9 }

/-- Counterexample to C2: `markProcessing` sets `PROCESSING`
unconditionally, so a settlement sequence containing `markProcessing`
after a terminal state (the broker's retry of an already-`ERROR`
record) moves the record from the terminal `ERROR` back to the
non-terminal `PROCESSING`. -/
theorem markProcessing_reopens_terminal :
    samplePredErrState.status.isTerminal = true ∧
    applySettleOp [samplePredErrState] "p1" (SettleOp.processing 9) =
      .ok ([samplePredReopened], samplePredReopened) ∧
    samplePredReopened.status.isTerminal = false :=
  ⟨rfl, rfl, rfl⟩

/-- C2 (amended): under any settlement operation that is not a
`markProcessing` re-applied to an already-terminal record, the status
only moves forward along `PENDING → PROCESSING → {COMPLETED, ERROR}`
(its rank never decreases) and a terminal status stays terminal;
`markProcessing` on a terminal record is the sole backward transition. -/
theorem settleOp_status_moves_forward (db : Db) (id : String) (op : SettleOp)
    (db' : Db) (p' p : Prediction)
    (hok : applySettleOp db id op = .ok (db', p'))
    (hp : dbGet db id = some p)
    (hsafe : op.isProcessing = false ∨ p.status.isTerminal = false) :
    dbGet db' id = some p' ∧ p.status.rank ≤ p'.status.rank ∧
    (p.status.isTerminal = true → p'.status.isTerminal = true) := by
  have hrank2 : ∀ s : PredictionStatus, s.rank ≤ 2 := by
    intro s
    cases s <;> simp [PredictionStatus.rank]
  cases op with
  | processing now =>
      rcases hsafe with h | h
      · exact absurd h (by simp [SettleOp.isProcessing])
      · unfold applySettleOp markProcessing at hok
        have hself := dbGet_dbUpdate_self hok (fun q => rfl)
        obtain ⟨p0, hfind, hp', hdb'⟩ := dbUpdate_eq_ok hok
        have hpp : p = p0 := by
          unfold dbGet at hp
          rw [hp] at hfind
          exact Option.some.inj hfind
        subst hpp
        subst hp'
        refine ⟨hself, ?_, ?_⟩
        · cases hst : p.status <;>
            simp [hst, PredictionStatus.rank, PredictionStatus.isTerminal] at h ⊢
        · intro ht
          exact absurd ht (by simp [h])
  | error msg now =>
      unfold applySettleOp markError at hok
      have hself := dbGet_dbUpdate_self hok (fun q => rfl)
      obtain ⟨p0, hfind, hp', hdb'⟩ := dbUpdate_eq_ok hok
      subst hp'
      exact ⟨hself, hrank2 _, fun _ => rfl⟩
  | completed data now =>
      unfold applySettleOp at hok
      simp only [markCompleted] at hok
      by_cases hc : data.costTotal ≤ 0
      · rw [if_pos hc] at hok
        unfold markError at hok
        have hself := dbGet_dbUpdate_self hok (fun q => rfl)
        obtain ⟨p0, hfind, hp', hdb'⟩ := dbUpdate_eq_ok hok
        subst hp'
        exact ⟨hself, hrank2 _, fun _ => rfl⟩
      · rw [if_neg hc] at hok
        have hself := dbGet_dbUpdate_self hok (fun q => rfl)
        obtain ⟨p0, hfind, hp', hdb'⟩ := dbUpdate_eq_ok hok
        subst hp'
        exact ⟨hself, hrank2 _, fun _ => rfl⟩

/-- The sample record after the normal `PENDING → PROCESSING` claim. -/
def samplePredProcessing : Prediction :=
  { samplePred with status := .PROCESSING, updatedAt := 3 }

/-- Witness for C2 (amended): a worker claiming the `PENDING` sample
record moves it forward to `PROCESSING`. -/
theorem settleOp_status_moves_forward_witness :
    dbGet sampleDb "p1" = some samplePred ∧
    dbGet [samplePredProcessing] "p1" = some samplePredProcessing ∧
    samplePred.status.rank ≤ samplePredProcessing.status.rank := by
  have h := settleOp_status_moves_forward sampleDb "p1" (SettleOp.processing 3)
    [samplePredProcessing] samplePredProcessing samplePred rfl rfl (Or.inr rfl)
  exact ⟨rfl, h.1, h.2.1⟩

/-! ### C3 -/

/-- The creation payload that produces `samplePred`. -/
def sampleCreateInput : CreatePredictionInput :=
  { userId := "u1"
    currency := "EUR"
    volumeTon := 1000
    leadTimeDays := none
    fuelIndex := none
    taxMultiplier := none
    inputJson := sampleInput }

/-- `samplePred` after a plain successful completion (cost 2500,
2 per kg). -/
def samplePredDone : Prediction :=
  { samplePred with
    status := .COMPLETED
    costTotal := some 2500
    euroPerKg := some 2
    outputJson := some sampleOutputJson
    errorMessage := none
    updatedAt := 1 }

/-- `samplePredDone` after a later `markError` (for instance a webhook
`status="error"` push): status flips to `ERROR` but the result columns
are not cleared. -/
def samplePredStale : Prediction :=
  { samplePredDone with
    status := .ERROR
    errorMessage := some "remote failed"
    updatedAt := 2 }

/-- Counterexample to C3: the table holding `samplePredStale` is
reachable (create, markCompleted, markError), yet that record has
`status = ERROR` while `costTotal`, `euroPerKg` and `outputJson` are all
still populated — `markError` does not clear them, so the "only if"
direction of the claimed equivalence fails. -/
theorem completed_fields_survive_markError :
    Reach [samplePredStale] ∧
    samplePredStale.status = .ERROR ∧
    samplePredStale.status ≠ .COMPLETED ∧
    samplePredStale.costTotal = some 2500 ∧
    samplePredStale.euroPerKg = some 2 ∧
    samplePredStale.outputJson = some sampleOutputJson := by
  refine ⟨?_, rfl, by decide, rfl, rfl, rfl⟩
  have h0 : Reach ([] : Db) := .init
  have hc : createPrediction [] "p1" sampleCreateInput 0 =
      Except.ok ([samplePred], samplePred) := rfl
  have h1 : Reach [samplePred] := .step h0 (.create hc)
  have hm : applySettleOp [samplePred] "p1"
      (SettleOp.completed (sampleCompleteInput 2500 2) 1) =
      Except.ok ([samplePredDone], samplePredDone) := rfl
  have h2 : Reach [samplePredDone] := .step h1 (.settle hm)
  have he : applySettleOp [samplePredDone] "p1"
      (SettleOp.error "remote failed" 2) =
      Except.ok ([samplePredStale], samplePredStale) := rfl
  exact .step h2 (.settle he)

/-- The result columns `costTotal`, `euroPerKg`, `outputJson` are all
populated. -/
def resultsPresent (p : Prediction) : Prop :=
  p.costTotal.isSome = true ∧ p.euroPerKg.isSome = true ∧ p.outputJson.isSome = true

/-- Any successful settlement operation rewrites the table to a mapped
version of itself in which the touched record satisfies
"`COMPLETED` implies results present" outright. -/
theorem applySettleOp_shape {db : Db} {id : String} {op : SettleOp}
    {db' : Db} {p' : Prediction}
    (h : applySettleOp db id op = .ok (db', p')) :
    ∃ f : Prediction → Prediction,
      db' = db.map (fun q => if q.id = id then f q else q) ∧
      (∀ q, (f q).status = .COMPLETED → resultsPresent (f q)) := by
  cases op with
  | processing now =>
      unfold applySettleOp markProcessing at h
      obtain ⟨p0, hfind, hp', hdb'⟩ := dbUpdate_eq_ok h
      refine ⟨_, hdb', ?_⟩
      intro q hq
      simp at hq
  | error msg now =>
      unfold applySettleOp markError at h
      obtain ⟨p0, hfind, hp', hdb'⟩ := dbUpdate_eq_ok h
      refine ⟨_, hdb', ?_⟩
      intro q hq
      simp at hq
  | completed data now =>
      unfold applySettleOp at h
      simp only [markCompleted] at h
      by_cases hc : data.costTotal ≤ 0
      · rw [if_pos hc] at h
        unfold markError at h
        obtain ⟨p0, hfind, hp', hdb'⟩ := dbUpdate_eq_ok h
        refine ⟨_, hdb', ?_⟩
        intro q hq
        simp at hq
      · rw [if_neg hc] at h
        obtain ⟨p0, hfind, hp', hdb'⟩ := dbUpdate_eq_ok h
        refine ⟨_, hdb', ?_⟩
        intro q hq
        exact ⟨rfl, rfl, rfl⟩

/-- C3 (amended): on every reachable table, the direction that does hold:
a record with `status = COMPLETED` always has `costTotal`, `euroPerKg`
and `outputJson` populated (these columns are written exactly by
`markCompleted`). The converse fails — see the counterexample — because
`markError` leaves previously written result columns in place. -/
theorem reach_completed_has_results {db : Db} (hdb : Reach db) :
    ∀ p ∈ db, p.status = .COMPLETED → resultsPresent p := by
  induction hdb with
  | init =>
      intro p hp
      simp at hp
  | step hr hs ih =>
      cases hs with
      | create hc =>
          unfold createPrediction at hc
          split at hc
          · exact absurd hc (by simp)
          · simp only [Except.ok.injEq, Prod.mk.injEq] at hc
            obtain ⟨hdb2, hpnew⟩ := hc
            subst hdb2
            intro q hq hstat
            rcases List.mem_append.1 hq with hq1 | hq1
            · exact ih q hq1 hstat
            · simp at hq1
              rw [hq1] at hstat
              simp at hstat
      | settle hsop =>
          rename_i sid sop spr
          obtain ⟨f, hdb2, hf⟩ := applySettleOp_shape hsop
          subst hdb2
          intro q hq hstat
          obtain ⟨r, hr', hqr⟩ := List.mem_map.1 hq
          by_cases hrid : r.id = sid
          · rw [if_pos hrid] at hqr
            subst hqr
            exact hf r hstat
          · rw [if_neg hrid] at hqr
            subst hqr
            exact ih r hr' hstat

/-- Witness for C3 (amended): the reachable table `[samplePredDone]`
(create then complete) has its completed record's result columns
populated. -/
theorem reach_completed_has_results_witness :
    Reach [samplePredDone] ∧
    (samplePredDone.status = .COMPLETED → resultsPresent samplePredDone) := by
  have h0 : Reach ([] : Db) := .init
  have hc : createPrediction [] "p1" sampleCreateInput 0 =
      Except.ok ([samplePred], samplePred) := rfl
  have h1 : Reach [samplePred] := .step h0 (.create hc)
  have hm : applySettleOp [samplePred] "p1"
      (SettleOp.completed (sampleCompleteInput 2500 2) 1) =
      Except.ok ([samplePredDone], samplePredDone) := rfl
  have h2 : Reach [samplePredDone] := .step h1 (.settle hm)
  exact ⟨h2, reach_completed_has_results h2 samplePredDone (by simp)⟩

/-! ### C6 -/

/-- The error message the queue worker's processor throws for each
failing remote outcome (`none` on success). -/
def pyFailureMessage : PyOutcome → Option String
  | .ok _ _ => none
  | .httpError status errorText =>
      some ("Python API error: " ++ toString status ++ " - " ++ errorText)
  | .netError msg => some msg

/-- When the touched record exists, the workers' catch block records the
message via `markError` and re-raises exactly that message. -/
theorem workerCatch_spec (db : Db) (id msg : String) (now : Nat)
    (p : Prediction) (hp : dbGet db id = some p) :
    ∃ db2 p2, workerCatch db id msg now = (db2, .error msg) ∧
      dbGet db2 id = some p2 ∧ p2.status = .ERROR ∧
      p2.errorMessage = some msg := by
  have hup := dbUpdate_of_dbGet hp
    (fun q => { q with status := .ERROR, errorMessage := some msg, updatedAt := now })
  refine ⟨db.map (fun q => if q.id = id then
      { q with status := .ERROR, errorMessage := some msg, updatedAt := now } else q),
    { p with status := .ERROR, errorMessage := some msg, updatedAt := now },
    ?_, ?_, rfl, rfl⟩
  · unfold workerCatch markError
    rw [hup]
  · exact dbGet_map_update hp (fun q => rfl)

/-- `markProcessing` on a present record succeeds and keeps the record
present (with status `PROCESSING`). -/
theorem markProcessing_of_present (db : Db) (id : String) (now : Nat)
    (p : Prediction) (hp : dbGet db id = some p) :
    markProcessing db id now =
      .ok (db.map (fun q => if q.id = id then
            { q with status := .PROCESSING, updatedAt := now } else q),
          { p with status := .PROCESSING, updatedAt := now }) ∧
    dbGet (db.map (fun q => if q.id = id then
            { q with status := .PROCESSING, updatedAt := now } else q)) id =
      some { p with status := .PROCESSING, updatedAt := now } := by
  constructor
  · unfold markProcessing
    exact dbUpdate_of_dbGet hp _
  · exact dbGet_map_update hp (fun q => rfl)

/-- C6: whenever the remote call fails, each worker processor first
records the failure on the record (`markError`: status `ERROR`, the
failure text stored in `errorMessage`) and then re-raises exactly that
error for the broker's retry/backoff — for the queue-registered worker
(`queue.ts`) and for the standalone worker (`predictionWorker.ts`, whose
raised `MlError` message is re-thrown verbatim). -/
theorem worker_failures_recorded_then_rethrown (db : Db) (id : String)
    (p : Prediction) (hp : dbGet db id = some p) (now : Nat)
    (remoteQ : InputJson → PyOutcome) (msgQ : String)
    (hfailQ : pyFailureMessage (remoteQ p.inputJson) = some msgQ)
    (remoteW : PredictInput → FetchOutcome PredictOutput) (e : MlError)
    (hfailW : ∀ input, fetchWithTimeout (remoteW input) = .error e) :
    (∃ db2 p2, queueWorkerProcess db id remoteQ now = (db2, .error msgQ) ∧
       dbGet db2 id = some p2 ∧ p2.status = .ERROR ∧
       p2.errorMessage = some msgQ) ∧
    (∃ db2 p2, predictionWorkerProcess db id remoteW now = (db2, .error e.message) ∧
       dbGet db2 id = some p2 ∧ p2.status = .ERROR ∧
       p2.errorMessage = some e.message) := by
  obtain ⟨hproc, hkeep⟩ := markProcessing_of_present db id now p hp
  constructor
  · obtain ⟨db2, p2, hcatch, hget, hst, hmsg⟩ :=
      workerCatch_spec (db.map (fun q => if q.id = id then
          { q with status := .PROCESSING, updatedAt := now } else q)) id msgQ now
        { p with status := .PROCESSING, updatedAt := now } hkeep
    refine ⟨db2, p2, ?_, hget, hst, hmsg⟩
    unfold queueWorkerProcess
    rw [hp]
    dsimp only
    rw [hproc]
    dsimp only
    cases ho : remoteQ p.inputJson with
    | ok cost breakdown =>
        rw [ho] at hfailQ
        simp [pyFailureMessage] at hfailQ
    | httpError status errorText =>
        rw [ho] at hfailQ
        simp only [pyFailureMessage, Option.some.injEq] at hfailQ
        dsimp only
        rw [hfailQ]
        exact hcatch
    | netError msg =>
        rw [ho] at hfailQ
        simp only [pyFailureMessage, Option.some.injEq] at hfailQ
        dsimp only
        rw [hfailQ]
        exact hcatch
  · obtain ⟨db2, p2, hcatch, hget, hst, hmsg⟩ :=
      workerCatch_spec (db.map (fun q => if q.id = id then
          { q with status := .PROCESSING, updatedAt := now } else q)) id e.message now
        { p with status := .PROCESSING, updatedAt := now } hkeep
    refine ⟨db2, p2, ?_, hget, hst, hmsg⟩
    unfold predictionWorkerProcess
    rw [hproc]
    dsimp only
    rw [hfailW]
    dsimp only
    exact hcatch

/-- Witness for C6: with a 500 from the Python backend and a timeout
from the ML client, both workers on the sample table re-raise after
recording. -/
theorem worker_failures_recorded_then_rethrown_witness :
    pyFailureMessage (PyOutcome.httpError 500 "boom") =
      some "Python API error: 500 - boom" ∧
    (queueWorkerProcess sampleDb "p1" (fun _ => PyOutcome.httpError 500 "boom") 4).2 =
      .error "Python API error: 500 - boom" := by
  have h := worker_failures_recorded_then_rethrown sampleDb "p1" samplePred rfl 4
    (fun _ => PyOutcome.httpError 500 "boom") "Python API error: 500 - boom" rfl
    (fun _ => FetchOutcome.abort) (MlError.timeout DEFAULT_TIMEOUT) (fun _ => rfl)
  obtain ⟨⟨db2, p2, hrun, _, _, _⟩, _⟩ := h
  exact ⟨rfl, by rw [hrun]⟩

/-! ### C7 -/

/-- `markCompleted` on a present record with acceptable cost succeeds,
marking the record `COMPLETED` and storing the given cost and unit
cost. -/
theorem markCompleted_of_present (db : Db) (id : String)
    (data : CompletePredictionInput) (now : Nat) (p : Prediction)
    (hp : dbGet db id = some p) (hc : ¬ data.costTotal ≤ 0) :
    ∃ db2 p2, markCompleted db id data now = .ok (db2, p2) ∧
      dbGet db2 id = some p2 ∧ p2.status = .COMPLETED ∧
      p2.costTotal = some data.costTotal ∧
      p2.euroPerKg = some data.euroPerKg := by
  refine ⟨db.map (fun q => if q.id = id then
      { q with
        status := .COMPLETED
        costTotal := some data.costTotal
        euroPerKg := some data.euroPerKg
        outputJson := some data.outputJson
        modelUsed := data.modelUsed.orElse (fun _ => q.modelUsed)
        modelVersion := data.modelVersion.orElse (fun _ => q.modelVersion)
        artifactPath := data.artifactPath.orElse (fun _ => q.artifactPath)
        errorMessage := if data.euroPerKg > 10000 then some absurdWarning else none
        updatedAt := now } else q),
    { p with
      status := .COMPLETED
      costTotal := some data.costTotal
      euroPerKg := some data.euroPerKg
      outputJson := some data.outputJson
      modelUsed := data.modelUsed.orElse (fun _ => p.modelUsed)
      modelVersion := data.modelVersion.orElse (fun _ => p.modelVersion)
      artifactPath := data.artifactPath.orElse (fun _ => p.artifactPath)
      errorMessage := if data.euroPerKg > 10000 then some absurdWarning else none
      updatedAt := now }, ?_, ?_, rfl, rfl, rfl⟩
  · simp only [markCompleted]
    rw [if_neg hc]
    exact dbUpdate_of_dbGet hp _
  · exact dbGet_map_update hp (fun q => rfl)

/-- A stored input payload with no readable fields at all. -/
def rawInputNoRoute : InputJson := { route := none, fx_used := none }

/-- A stored input payload that spells out the builder's own defaults. -/
def rawInputWithRoute : InputJson :=
  { route := some defaultRoute, fx_used := some defaultFxUsed }

/-- The sample record with the empty stored payload. -/
def predNoRoute : Prediction := { samplePred with inputJson := rawInputNoRoute }

/-- The sample record with the defaults-spelling stored payload. -/
def predWithRoute : Prediction :=
  { samplePred with inputJson := rawInputWithRoute }

/-- A remote oracle that reports whether the request it receives carries
an explicit `route`. -/
def probeRemote : InputJson → PyOutcome := fun input =>
  if input.route.isSome then PyOutcome.netError "request-carried-explicit-route"
  else PyOutcome.netError "request-carried-no-route"

/-- Counterexample to C7: the worker actually registered for enqueued
jobs (`queue.ts`) posts `prediction.inputJson` verbatim — it applies no
defaults. `predNoRoute` and `predWithRoute` have identical
defaults-applied payloads (`buildMlPayloadFromPrediction` agrees on
them), yet the job's remote call can tell them apart, because what is
sent is the raw stored payload, not the defaults-applied one. -/
theorem queueWorker_sends_raw_inputJson :
    buildMlPayloadFromPrediction predNoRoute =
      buildMlPayloadFromPrediction predWithRoute ∧
    (queueWorkerProcess [predNoRoute] "p1" probeRemote 1).2 =
      .error "request-carried-no-route" ∧
    (queueWorkerProcess [predWithRoute] "p1" probeRemote 1).2 =
      .error "request-carried-explicit-route" :=
  ⟨rfl, rfl, rfl⟩

/-- C7 (amended): the queue-registered worker's remote request is the
stored `inputJson` verbatim (its run depends on the oracle only at
`p.inputJson`), and on a successful response with positive cost it
settles via `markCompleted` with `euroPerKg = costTotal /
(volumeTon * 1000)`; the defaults (`leadTimeDays` 30, `fuelIndex` 1.0,
`taxMultiplier` 1.0) are applied only by `buildMlPayloadFromPrediction`
inside the never-invoked `initializePredictionWorker`, which also uses
the same `euroPerKg` formula on success. -/
theorem worker_request_content_and_settlement (db : Db) (id : String)
    (p : Prediction) (hp : dbGet db id = some p) (now : Nat) :
    (∀ f g : InputJson → PyOutcome, f p.inputJson = g p.inputJson →
      queueWorkerProcess db id f now = queueWorkerProcess db id g now) ∧
    (∀ (cost : Rat) (bd : Option Breakdown) (f : InputJson → PyOutcome),
      f p.inputJson = .ok cost bd → 0 < cost →
      ∃ db2 p2, queueWorkerProcess db id f now = (db2, .ok ()) ∧
        dbGet db2 id = some p2 ∧ p2.status = .COMPLETED ∧
        p2.costTotal = some cost ∧
        p2.euroPerKg = some (cost / (p.volumeTon * 1000))) ∧
    (p.leadTimeDays = none → (buildMlPayloadFromPrediction p).lead_time_days = 30) ∧
    (p.fuelIndex = none → (buildMlPayloadFromPrediction p).fuel_index = 1) ∧
    (p.taxMultiplier = none → (buildMlPayloadFromPrediction p).tax_multiplier = 1) ∧
    (∀ (out : PredictOutput) (g : PredictInput → FetchOutcome PredictOutput),
      (∀ input, fetchWithTimeout (g input) = .ok out) → 0 < out.cost_total →
      ∃ db2 p2, predictionWorkerProcess db id g now = (db2, .ok ()) ∧
        dbGet db2 id = some p2 ∧ p2.status = .COMPLETED ∧
        p2.costTotal = some out.cost_total ∧
        p2.euroPerKg = some (out.cost_total / (p.volumeTon * 1000))) := by
  obtain ⟨hproc, hkeep⟩ := markProcessing_of_present db id now p hp
  refine ⟨?_, ?_, ?_, ?_, ?_, ?_⟩
  · intro f g hfg
    unfold queueWorkerProcess
    rw [hp]
    dsimp only
    rw [hproc]
    dsimp only
    rw [hfg]
  · intro cost bd f hok hcost
    obtain ⟨db2, p2, hmc, hget2, hst2, hct2, hek2⟩ :=
      markCompleted_of_present
        (db.map (fun q => if q.id = id then
          { q with status := .PROCESSING, updatedAt := now } else q)) id
        { costTotal := cost
          euroPerKg := cost / (p.volumeTon * 1000)
          outputJson := OutputJson.fromBreakdown
            (bd.getD { model_used := none, version := none, artifact_path := none })
          modelUsed := bd.bind (fun b => b.model_used)
          modelVersion := bd.bind (fun b => b.version)
          artifactPath := bd.bind (fun b => b.artifact_path) } now
        { p with status := .PROCESSING, updatedAt := now } hkeep
        (by simpa using not_le.2 hcost)
    refine ⟨db2, p2, ?_, hget2, hst2, hct2, hek2⟩
    unfold queueWorkerProcess
    rw [hp]
    dsimp only
    rw [hproc]
    dsimp only
    rw [hok]
    dsimp only
    rw [hmc]
  · intro h
    simp [buildMlPayloadFromPrediction, jsOrNum, h]
  · intro h
    simp [buildMlPayloadFromPrediction, jsOrNum, h]
  · intro h
    simp [buildMlPayloadFromPrediction, jsOrNum, h]
  · intro out g hokW hcost
    obtain ⟨db2, p2, hmc, hget2, hst2, hct2, hek2⟩ :=
      markCompleted_of_present
        (db.map (fun q => if q.id = id then
          { q with status := .PROCESSING, updatedAt := now } else q)) id
        { costTotal := out.cost_total
          euroPerKg := out.cost_total / (p.volumeTon * 1000)
          outputJson := OutputJson.fromPredict out
          modelUsed := out.breakdown.bind (fun b => b.model_used)
          modelVersion := out.breakdown.bind (fun b => b.version)
          artifactPath := out.breakdown.bind (fun b => b.artifact_path) } now
        { p with status := .PROCESSING, updatedAt := now } hkeep
        (not_le.2 hcost)
    refine ⟨db2, p2, ?_, hget2, hst2, hct2, hek2⟩
    unfold predictionWorkerProcess
    rw [hproc]
    dsimp only
    rw [hokW]
    dsimp only
    rw [hmc]

/-- Witness for C7 (amended): the sample record has no stored
`leadTimeDays`, and the standalone builder defaults it to 30. -/
theorem worker_request_content_and_settlement_witness :
    samplePred.leadTimeDays = none ∧
    (buildMlPayloadFromPrediction samplePred).lead_time_days = 30 :=
  ⟨rfl,
   (worker_request_content_and_settlement sampleDb "p1" samplePred rfl 1).2.2.1 rfl⟩

end PredCustos
